import Mathlib

/-!
Verification of the ACE intent-classification core against its
natural-language specification.

The development shallowly embeds the relevant parts of the source:

* `ace/ai/data.py` — entity/intent loading, the combinatorial template
  expander `generate_intent_dataset`, and `save_dataset`;
* `ace/ai/models.py` — `IntentClassifierModel.predict` and the
  coefficient-of-variation confidence `_confidence` (the external spaCy
  scorer is an opaque parameter, scores are idealised as rationals);
* `ace/intents.py` — the decorator-built dispatch table and `run_intent`.

Filesystem access is modelled at its boundary: a directory scan becomes a
list of (base name, splitlines content) pairs, and a written file becomes
the list of rows the writer would emit wrapped in `Except` for the
error path.
-/

/-- A segment of an intent template: either literal text or a `\x7bname\x7d`
placeholder.  Templates are modelled structurally; `entitiesIn` below
corresponds to `re.findall(r"\x7b(.*?)\x7d", template)` (first-occurrence
order, duplicates kept) and `render` to `str.format`. -/
inductive TItem where
  | lit (s : String)
  | ph (name : String)
deriving DecidableEq, Repr

/-- A template string, split into literal and placeholder segments. -/
abbrev Template := List TItem

/-- The placeholder names occurring in a template, in first-occurrence
order with duplicates kept — the result of the source's
`re.findall(r"\x7b(.*?)\x7d", template)`. -/
def entitiesIn (t : Template) : List String :=
  t.filterMap fun item =>
    match item with
    | .lit _ => none
    | .ph n => some n

/-- The raw text of a template (placeholders printed back in braces).
For a template with no placeholders this is the template itself, which is
what `examples.append(template)` appends in the source. -/
def templateStr (t : Template) : String :=
  t.foldl
    (fun acc item =>
      acc ++ match item with
             | .lit s => s
             | .ph n => "\x7b" ++ n ++ "\x7d")
    ""

/-- Lookup in an association list built by `dict(zip(keys, values))`:
a duplicated key keeps its LAST value, as Python dict construction does. -/
def lastAssoc (pairs : List (String × String)) (n : String) : Option String :=
  (pairs.reverse.find? fun p => p.1 == n).map Prod.snd

/-- `template.format(**dict(zip(entities, combination)))`: substitute each
placeholder occurrence with the dict value for its name. -/
def render (t : Template) (pairs : List (String × String)) : String :=
  t.foldl
    (fun acc item =>
      acc ++ match item with
             | .lit s => s
             | .ph n => (lastAssoc pairs n).getD "")
    ""

/-- `raw_entities[entity]` where the gazetteer dict is modelled as an
association list with unique keys (first binding wins on lookup). -/
def dictGet (d : List (String × List String)) (k : String) : Option (List String) :=
  (d.find? fun p => p.1 == k).map Prod.snd

/-- `itertools.product(*lists)`: all tuples, rightmost factor varying
fastest. -/
def listProd : List (List String) → List (List String)
  | [] => [[]]
  | l :: ls => l.flatMap fun x => (listProd ls).map (x :: ·)

/-- One iteration of the template loop in `generate_intent_dataset`
(data.py lines 247-272), acting on the accumulator `examples`:

* a template with no placeholders is appended (`examples.append(template)`);
* a template whose placeholders all resolve REPLACES the accumulator
  (`examples = list(map(...))` — assignment, not extension, in the source);
* a template with a missing entity raises `KeyError` inside the list
  comprehension, before the assignment, so the `except` branch leaves
  `examples` unchanged and continues. -/
def expandStep (raw_entities : List (String × List String))
    (examples : List String) (template : Template) : List String :=
  let entities := entitiesIn template
  if entities.isEmpty then
    examples ++ [templateStr template]
  else
    match entities.mapM (dictGet raw_entities) with
    | none => examples
    | some lists =>
        (listProd lists).map fun combination =>
          render template (entities.zip combination)

/-- The value of `examples` after the template loop of
`generate_intent_dataset` for one intent. -/
def genIntent (raw_entities : List (String × List String))
    (templates : List Template) : List String :=
  templates.foldl (expandStep raw_entities) []

/-- `generate_intent_dataset` (data.py lines 217-283).  Each intent maps to
`set(examples[:num_examples])` — truncation first, then set conversion.
The final check `if not dataset` tests emptiness of the dict itself (one
entry per input intent), not of the generated examples; only an empty
intent map reaches the `ValueError("No examples generated.")`. -/
def generate_intent_dataset (raw_intents : List (String × List Template))
    (raw_entities : List (String × List String)) (num_examples : ℕ) :
    Except String (List (String × Finset String)) :=
  let dataset := raw_intents.map fun p =>
    (p.1, ((genIntent raw_entities p.2).take num_examples).toFinset)
  if dataset.isEmpty then .error "No examples generated." else .ok dataset

/-- `load_entities` (data.py lines 140-179) at the filesystem boundary:
each discovered `.entity` file is a pair of its base name and the result
of `read_text().splitlines()` (note: `splitlines` keeps empty interior
lines; only a file with no lines at all yields `[]`).  The loop skips a
file exactly when `not content`, i.e. when that list is empty, and
otherwise stores ALL its lines; an empty resulting map raises
`FileNotFoundError`. -/
def load_entities (files : List (String × List String)) :
    Except String (List (String × List String)) :=
  let entities := files.foldl
    (fun acc f => if f.2.isEmpty then acc else acc ++ [f]) []
  if entities.isEmpty then .error "No entities found." else .ok entities

/-- `PurePath.suffix` on a file name: the substring from the last dot,
provided that dot is neither the leading character nor the final one;
otherwise the empty string. -/
def pySuffix (name : String) : String :=
  let cs := name.data
  let rev := (cs.reverse.takeWhile (· ≠ '.')).length
  let len := cs.length
  if 0 < rev ∧ rev + 1 < len then String.mk (cs.drop (len - 1 - rev)) else ""

/-- The rows `_save_as_csv` writes: a `phrase,intent` header, then one row
per example, intents in dict order, examples in the per-intent order. -/
def saveAsCsv (dataset : List (String × List String)) : List (List String) :=
  ["phrase", "intent"] ::
    dataset.flatMap fun p => p.2.map fun e => [e, p.1]

/-- `save_dataset` (data.py lines 286-328): the handler table has the
single key `".csv"`; any other suffix raises
`ValueError(f"Unsupported file type: ...")` and no file is written
(modelled as the error branch carrying no rows). -/
def save_dataset (dataset : List (String × List String)) (filename : String) :
    Except String (List (List String)) :=
  if pySuffix filename == ".csv" then .ok (saveAsCsv dataset)
  else .error ("Unsupported file type: " ++ pySuffix filename)

/-- `statistics.mean`: arithmetic mean.  Scores are idealised as rationals;
`confidence` below only uses this on lists of length at least two (the
source guards shorter lists by raising). -/
def pyMean (l : List ℚ) : ℚ := l.sum / l.length

/-- Sum of squared deviations from the mean, the numerator shared by both
variance conventions. -/
def sumSqDev (l : List ℚ) : ℚ := (l.map fun x => (x - pyMean l) ^ 2).sum

/-- `statistics.stdev`: the SAMPLE standard deviation, with `n - 1` in the
denominator.  Defined for lists of length at least two; the source raises
`StatisticsError` below that, which `confidence` models as `none`. -/
noncomputable def pyStdev (l : List ℚ) : ℝ :=
  Real.sqrt ((sumSqDev l / ((l.length : ℚ) - 1) : ℚ) : ℝ)

/-- Stable insertion of one scored label into a list sorted by descending
score.  `sortDescByValue` inserts from the right of the original list, so
the element being inserted precedes every already-placed element of equal
score — matching the stability of Python's `sorted`. -/
def insertDesc (p : String × ℚ) : List (String × ℚ) → List (String × ℚ)
  | [] => [p]
  | q :: qs => if p.2 < q.2 then q :: insertDesc p qs else p :: q :: qs

/-- `sorted(predictions.items(), key=lambda x: x[1], reverse=True)`:
a stable sort by descending score. -/
def sortDescByValue (l : List (String × ℚ)) : List (String × ℚ) :=
  l.foldr insertDesc []

/-- `IntentClassifierModel._confidence` (models.py lines 327-351).  The
score dict is an association list in iteration order.  After sorting by
descending score: if every score is zero (true as well for an empty map),
the result is `0`; otherwise the source computes
`stdev(values) / mean(values)`, which raises `StatisticsError` on fewer
than two values and `ZeroDivisionError` on a zero mean — both modelled as
`none`. -/
noncomputable def confidence (predictions : List (String × ℚ)) : Option ℝ :=
  if ((sortDescByValue predictions).map Prod.snd).all (fun x => x == 0) then
    some 0
  else if ((sortDescByValue predictions).map Prod.snd).length < 2 then
    none
  else if ((sortDescByValue predictions).map Prod.snd).sum == 0 then
    none
  else
    some (pyStdev ((sortDescByValue predictions).map Prod.snd) /
      ((pyMean ((sortDescByValue predictions).map Prod.snd) : ℚ) : ℝ))

/-- `text.strip().lower() if text else ""`: a null or empty utterance
becomes the empty string, anything else is trimmed and lower-cased. -/
def normalizeText (text : Option String) : String :=
  match text with
  | none => ""
  | some s => if s == "" then "" else s.trim.toLower

/-- `max(doc.cats, key=doc.cats.get)`: the FIRST label attaining the
maximal score, in dict iteration order (`max` keeps the current best
unless a later item is strictly greater); `none` models the `ValueError`
raised on an empty dict. -/
def argmaxFirst : List (String × ℚ) → Option (String × ℚ)
  | [] => none
  | p :: ps => some (ps.foldl (fun best q => if best.2 < q.2 then q else best) p)

/-- `IntentClassifierModel.predict` (models.py lines 189-210), with the
spaCy pipeline abstracted as an opaque `scorer` from the normalized text
to the score map `doc.cats`.  There is no early return for empty input:
the scorer is always invoked, on `""` when the input is null or empty.
The result is `"unknown"` exactly when the computed confidence is
strictly below the threshold. -/
noncomputable def predict (scorer : String → List (String × ℚ)) (threshold : ℝ)
    (text : Option String) : Option String :=
  match argmaxFirst (scorer (normalizeText text)) with
  | none => none
  | some best =>
      match confidence (scorer (normalizeText text)) with
      | none => none
      | some c => some (if c < threshold then "unknown" else best.1)

/-- Stated from the spec's words, for comparison with the source: the
POPULATION standard deviation (denominator `n`). -/
noncomputable def populationStdDev (vals : List ℚ) : ℝ :=
  Real.sqrt (((vals.map fun x => (x - vals.sum / vals.length) ^ 2).sum /
    (vals.length : ℚ) : ℚ) : ℝ)

/-- Stated from the spec's words, for comparison with the source: the
confidence the claim asserts — `0` when every score is zero, otherwise
the population standard deviation of the scores divided by their
arithmetic mean. -/
noncomputable def claimedPopCoV (m : List (String × ℚ)) : ℝ :=
  if (m.map Prod.snd).all (fun x => x == 0) then 0
  else populationStdDev (m.map Prod.snd) /
    (((m.map Prod.snd).sum / (m.map Prod.snd).length : ℚ) : ℝ)

/-- Stated from the amended claim's words: the SAMPLE standard deviation
(denominator `n - 1`) of the scores divided by their arithmetic mean. -/
noncomputable def sampleCoV (vals : List ℚ) : ℝ :=
  Real.sqrt (((vals.map fun x => (x - vals.sum / vals.length) ^ 2).sum /
    ((vals.length : ℚ) - 1) : ℚ) : ℝ) /
    ((vals.sum / vals.length : ℚ) : ℝ)

/-- One entry of the dispatch table: the `Intent` namedtuple
`(func, should_exit, requires_text)` of intents.py.  Handlers that take no
text ignore their argument. -/
structure IntentEntry where
  run : String → String
  should_exit : Bool
  requires_text : Bool

/-- The handlers whose responses depend on external collaborators
(app managers, weather API, to-do API, NER model) — out of the core's
scope, so opaque. -/
structure ExternalHandlers where
  open_app : String → String
  close_app : String → String
  current_weather : String → String
  tomorrow_weather : String → String
  show_todo_list : String
  add_todo : String → String

/-- The `unknown` handler's registration: a fixed apology, no exit, no
text required. -/
def unknown_entry : IntentEntry :=
  ⟨fun _ => "Sorry, I don't know what you mean.", false, false⟩

/-- The `intent_funcs` dict, built by the `@_register` decorators in
definition order (intents.py). -/
def intent_funcs (ext : ExternalHandlers) : List (String × IntentEntry) :=
  [("unknown", unknown_entry),
   ("greeting", ⟨fun _ => "Hello!", false, false⟩),
   ("goodbye", ⟨fun _ => "Goodbye!", true, false⟩),
   ("open_app", ⟨ext.open_app, false, true⟩),
   ("close_app", ⟨ext.close_app, false, true⟩),
   ("current_weather", ⟨ext.current_weather, false, true⟩),
   ("tomorrow_weather", ⟨ext.tomorrow_weather, false, true⟩),
   ("show_todo_list", ⟨fun _ => ext.show_todo_list, false, false⟩),
   ("add_todo", ⟨ext.add_todo, false, true⟩)]

/-- `run_intent` (intents.py lines 75-103).  The lookup default is the
bare `unknown` FUNCTION, not its `Intent` namedtuple, so a name missing
from the registry reaches `intent.requires_text` on a plain function and
raises `AttributeError` — modelled as the error branch. -/
def run_intent (ext : ExternalHandlers) (name : String) (text : String) :
    Except String (String × Bool) :=
  match (intent_funcs ext).find? (fun p => p.1 == name) with
  | some p => .ok ((if p.2.requires_text then p.2.run text else p.2.run ""),
      p.2.should_exit)
  | none => .error "AttributeError: 'function' object has no attribute 'requires_text'"

theorem mapM_none_of_mem {α β : Type} (f : α → Option β) {l : List α} {a : α}
    (ha : a ∈ l) (hf : f a = none) : l.mapM f = none := by
  induction l with
  | nil => cases ha
  | cons b bs ih =>
    rw [List.mapM_cons]
    rcases List.mem_cons.mp ha with rfl | hmem
    · rw [hf]; rfl
    · rw [ih hmem]
      cases f b <;> rfl

theorem expandStep_missing (raw_entities : List (String × List String))
    (t : Template) (hmiss : ∃ n ∈ entitiesIn t, dictGet raw_entities n = none)
    (ex : List String) : expandStep raw_entities ex t = ex := by
  obtain ⟨n, hn, hget⟩ := hmiss
  have hne : entitiesIn t ≠ [] := by
    intro h
    rw [h] at hn
    cases hn
  have hempty : (entitiesIn t).isEmpty = false := by
    cases h : (entitiesIn t).isEmpty
    · rfl
    · exact absurd (List.isEmpty_iff.mp h) hne
  simp only [expandStep, hempty, Bool.false_eq_true, if_false]
  rw [mapM_none_of_mem (dictGet raw_entities) hn hget]

/-- C7: under the combinatorial policy a template referencing an entity
absent from the gazetteer never raises: the `KeyError` is caught before
the `examples` assignment, so that template contributes zero examples,
the examples accumulated so far are kept, the remaining templates are
processed as if the bad template were absent, and dataset generation
still succeeds for any non-empty intent map. -/
theorem c7_missing_entity_safe (raw_entities : List (String × List String))
    (t : Template) (hmiss : ∃ n ∈ entitiesIn t, dictGet raw_entities n = none) :
    (∀ ex, expandStep raw_entities ex t = ex) ∧
    (∀ pre post : List Template,
      genIntent raw_entities (pre ++ t :: post) = genIntent raw_entities (pre ++ post)) ∧
    (∀ (raw_intents : List (String × List Template)) (num : ℕ),
      raw_intents ≠ [] →
      ∃ ds, generate_intent_dataset raw_intents raw_entities num = .ok ds) := by
  refine ⟨expandStep_missing raw_entities t hmiss, ?_, ?_⟩
  · intro pre post
    unfold genIntent
    rw [List.foldl_append, List.foldl_append]
    rw [show List.foldl (expandStep raw_entities)
          (List.foldl (expandStep raw_entities) [] pre) (t :: post) =
        List.foldl (expandStep raw_entities)
          (expandStep raw_entities (List.foldl (expandStep raw_entities) [] pre) t)
          post from rfl]
    rw [expandStep_missing raw_entities t hmiss]
  · intro raw_intents num hne
    have hfalse : (raw_intents.map fun p =>
        (p.1, ((genIntent raw_entities p.2).take num).toFinset)).isEmpty = false := by
      cases raw_intents with
      | nil => exact absurd rfl hne
      | cons a l => rfl
    refine ⟨raw_intents.map fun p =>
      (p.1, ((genIntent raw_entities p.2).take num).toFinset), ?_⟩
    simp only [generate_intent_dataset, hfalse, Bool.false_eq_true, if_false]

/-- Witness for C7 at a concrete input: the template `"\x7bcity\x7d"` with
gazetteer `\x7b"name": ["Alice"]\x7d` references the missing entity `city`;
the step keeps the already-accumulated example and the intent's result is
as if the template were absent. -/
theorem c7_missing_entity_safe_witness :
    (∃ n ∈ entitiesIn [TItem.ph "city"],
      dictGet [("name", ["Alice"])] n = none) ∧
    expandStep [("name", ["Alice"])] ["hi"] [TItem.ph "city"] = ["hi"] ∧
    genIntent [("name", ["Alice"])]
        ([[TItem.lit "hi"]] ++ [TItem.ph "city"] :: [[TItem.lit "hello ", TItem.ph "name"]]) =
      genIntent [("name", ["Alice"])]
        ([[TItem.lit "hi"]] ++ [[TItem.lit "hello ", TItem.ph "name"]]) := by
  have h := c7_missing_entity_safe [("name", ["Alice"])] [TItem.ph "city"] (by decide)
  exact ⟨by decide, h.1 ["hi"], h.2.1 [[TItem.lit "hi"]] [[TItem.lit "hello ", TItem.ph "name"]]⟩

/-- C8: for every dataset, `save_dataset` called with a filename whose
extension is not `.csv` raises the unsupported-format `ValueError`, the
error message names the rejected extension, and no rows are written
(the error branch carries no output file). -/
theorem c8_unsupported_format (dataset : List (String × List String))
    (filename : String) (h : pySuffix filename ≠ ".csv") :
    save_dataset dataset filename =
      .error ("Unsupported file type: " ++ pySuffix filename) := by
  have hb : (pySuffix filename == ".csv") = false := beq_eq_false_iff_ne.mpr h
  simp only [save_dataset, hb, Bool.false_eq_true, if_false]

/-- Witness for C8: saving to `output.txt` fails with the error naming
`.txt`. -/
theorem c8_unsupported_format_witness :
    pySuffix "output.txt" ≠ ".csv" ∧
    save_dataset [("intent1", ["example1"])] "output.txt" =
      .error "Unsupported file type: .txt" :=
  ⟨by decide,
   (c8_unsupported_format [("intent1", ["example1"])] "output.txt" (by decide)).trans
     (by rfl)⟩

/-- C9 counterexample: a `.entity` file containing only blank lines does
NOT have zero lines after `splitlines` (it has empty-string lines), so
`load_entities` keeps it instead of skipping it, and the stored value
list is the full line list — not the file's non-empty lines, which here
are none at all.  This refutes the claim at the concrete input
`colors.entity` with content two blank lines. -/
theorem c9_blank_lines_counterexample :
    load_entities [("colors", ["", ""])] = .ok [("colors", ["", ""])] ∧
    (["", ""].filter fun s => !(s == "")) = [] := by
  constructor
  · rfl
  · rfl

/-- C9 amended: the value list stored under an entity file's base name
consists of ALL of the file's lines as split by `splitlines` (empty lines
included), and a file is skipped exactly when that line list is empty
(a zero-byte file); a file whose lines are all blank is kept.  With no
file kept the `FileNotFoundError` is raised. -/
theorem c9_load_entities_keeps_all_lines (files : List (String × List String)) :
    load_entities files =
      if (files.filter fun f => !f.2.isEmpty).isEmpty then
        .error "No entities found."
      else .ok (files.filter fun f => !f.2.isEmpty) := by
  have key : ∀ acc : List (String × List String),
      files.foldl (fun acc f => if f.2.isEmpty then acc else acc ++ [f]) acc =
        acc ++ files.filter (fun f => !f.2.isEmpty) := by
    induction files with
    | nil => intro acc; simp
    | cons f fs ih =>
      intro acc
      rw [List.foldl_cons, List.filter_cons]
      cases h : f.2.isEmpty
      · simp only [Bool.false_eq_true, if_false, Bool.not_false, if_true, ih,
          List.append_assoc, List.singleton_append]
      · simp only [if_true, Bool.not_true, Bool.false_eq_true, if_false, ih]
  simp only [load_entities, key [], List.nil_append]

/-- C1 (code bug, evaluated at the failing input): for the intent
`greet` with templates `["hi", "hello \x7bname\x7d"]` and gazetteer
`\x7b"name": ["Alice"]\x7d`, the assignment `examples = list(map(...))`
overwrites the previously appended `"hi"`, so the generated set is
`\x7b"hello Alice"\x7d` only — the first template's contribution does not
appear, contradicting the claim that every template contributes its
examples to the intent's generated set. -/
theorem c1_template_contribution_lost :
    generate_intent_dataset
        [("greet", [[TItem.lit "hi"], [TItem.lit "hello ", TItem.ph "name"]])]
        [("name", ["Alice"])] 10 =
      .ok [("greet", ["hello Alice"].toFinset)] ∧
    "hi" ∉ (["hello Alice"].toFinset : Finset String) := by
  exact ⟨rfl, by decide⟩

/-- C4 (code bug, evaluated at the failing input): with a non-empty
intent map in which every intent generates zero examples
(`\x7b"greet": ["\x7ba\x7d"]\x7d` against an empty gazetteer), the source's
`if not dataset` check sees a non-empty dict of empty sets and raises
nothing, returning the all-empty dataset instead of the fatal
`NoExamplesGenerated` error; an individual empty intent beside a
non-empty one is indeed kept as an empty set. -/
theorem c4_all_empty_not_fatal :
    generate_intent_dataset [("greet", [[TItem.ph "a"]])] [] 1 =
      .ok [("greet", (∅ : Finset String))] ∧
    generate_intent_dataset
        [("greet", [[TItem.ph "a"]]), ("bye", [[TItem.lit "bye"]])] [] 5 =
      .ok [("greet", (∅ : Finset String)), ("bye", ["bye"].toFinset)] := by
  exact ⟨rfl, rfl⟩

/-- C5 counterexample: with the single template `"\x7ba\x7d"` and gazetteer
`\x7b"a": ["x", "x", "y"]\x7d`, `num_examples = 2`, there are two distinct
candidates (`x` and `y`), yet the source's `set(examples[:2])` truncates
to `["x", "x"]` BEFORE deduplicating, so the final set has one element,
not the claimed `num_examples = 2`. -/
theorem c5_truncate_before_dedup_counterexample :
    generate_intent_dataset [("i", [[TItem.ph "a"]])] [("a", ["x", "x", "y"])] 2 =
      .ok [("i", ["x", "x"].toFinset)] ∧
    2 ≤ (genIntent [("a", ["x", "x", "y"])] [[TItem.ph "a"]]).dedup.length ∧
    (["x", "x"].toFinset : Finset String).card = 1 := by
  refine ⟨rfl, by decide, by decide⟩

/-- C5 amended: each intent's candidate list is truncated to its first
`num_examples` elements in the product's iteration order and THEN
deduplicated by set conversion; consequently every per-intent set has at
most `num_examples` elements, and it has exactly as many elements as the
truncated candidate list whenever those first `num_examples` candidates
are pairwise distinct. -/
theorem c5_quota_truncate_then_dedup (raw_intents : List (String × List Template))
    (raw_entities : List (String × List String)) (n : ℕ)
    (ds : List (String × Finset String))
    (h : generate_intent_dataset raw_intents raw_entities n = .ok ds)
    (intent : String) (s : Finset String) (hmem : (intent, s) ∈ ds) :
    s.card ≤ n ∧
    ∃ ts, (intent, ts) ∈ raw_intents ∧
      s = ((genIntent raw_entities ts).take n).toFinset ∧
      (((genIntent raw_entities ts).take n).Nodup →
        s.card = ((genIntent raw_entities ts).take n).length) := by
  have hds : ds = raw_intents.map fun p =>
      (p.1, ((genIntent raw_entities p.2).take n).toFinset) := by
    by_cases hemp : (raw_intents.map fun p =>
        (p.1, ((genIntent raw_entities p.2).take n).toFinset)).isEmpty = true
    · simp only [generate_intent_dataset, hemp, if_true] at h
      cases h
    · simp only [generate_intent_dataset, hemp, if_false] at h
      exact ((Except.ok.injEq _ _).mp h).symm
  subst hds
  obtain ⟨p, hp, hpe⟩ := List.mem_map.mp hmem
  have h1 : p.1 = intent := congrArg Prod.fst hpe
  have h2 : ((genIntent raw_entities p.2).take n).toFinset = s := congrArg Prod.snd hpe
  subst h2
  refine ⟨(List.toFinset_card_le _).trans ?_, p.2, ?_, rfl, fun hnd => List.toFinset_card_of_nodup hnd⟩
  · rw [List.length_take]
    exact min_le_left _ _
  · have hp2 : (p.1, p.2) ∈ raw_intents := by simpa using hp
    rw [h1] at hp2
    exact hp2

/-- Witness for C5's amended statement at a concrete input: the dataset
for intent `i` is the set of the first two candidates, and its size obeys
the quota. -/
theorem c5_quota_truncate_then_dedup_witness :
    generate_intent_dataset [("i", [[TItem.ph "a"]])] [("a", ["x", "x", "y"])] 2 =
      .ok [("i", ["x", "x"].toFinset)] ∧
    ("i", (["x", "x"].toFinset : Finset String)) ∈
      [("i", (["x", "x"].toFinset : Finset String))] ∧
    (["x", "x"].toFinset : Finset String).card ≤ 2 := by
  have h := c5_quota_truncate_then_dedup [("i", [[TItem.ph "a"]])]
    [("a", ["x", "x", "y"])] 2 [("i", ["x", "x"].toFinset)] rfl
    "i" (["x", "x"].toFinset) (by decide)
  exact ⟨rfl, by decide, h.1⟩

theorem insertDesc_perm (p : String × ℚ) (l : List (String × ℚ)) :
    (insertDesc p l).Perm (p :: l) := by
  induction l with
  | nil => exact List.Perm.refl _
  | cons q qs ih =>
    rw [insertDesc]
    by_cases h : p.2 < q.2
    · rw [if_pos h]
      exact (ih.cons q).trans (List.Perm.swap p q qs)
    · rw [if_neg h]

theorem sortDescByValue_perm (l : List (String × ℚ)) :
    (sortDescByValue l).Perm l := by
  induction l with
  | nil => exact List.Perm.refl _
  | cons p ps ih =>
    exact (insertDesc_perm p (sortDescByValue ps)).trans (ih.cons p)

theorem perm_all_eq {α : Type} {l l' : List α} (h : l.Perm l') (p : α → Bool) :
    l.all p = l'.all p := by
  rw [Bool.eq_iff_iff, List.all_eq_true, List.all_eq_true]
  exact ⟨fun H x hx => H x (h.mem_iff.mpr hx), fun H x hx => H x (h.mem_iff.mp hx)⟩

theorem sorted_vals_perm (m : List (String × ℚ)) :
    ((sortDescByValue m).map Prod.snd).Perm (m.map Prod.snd) :=
  (sortDescByValue_perm m).map Prod.snd

theorem pyMean_perm {l l' : List ℚ} (h : l.Perm l') : pyMean l = pyMean l' := by
  rw [pyMean, pyMean, h.sum_eq, h.length_eq]

theorem sumSqDev_perm {l l' : List ℚ} (h : l.Perm l') : sumSqDev l = sumSqDev l' := by
  rw [sumSqDev, sumSqDev, pyMean_perm h, (h.map fun x => (x - pyMean l') ^ 2).sum_eq]

/-- C2 counterexample: on the score map `\x7b"a": 1, "b": 0\x7d` the source's
`statistics.stdev` is the SAMPLE standard deviation
`√((1-½)² + (0-½)²) / (2-1)) = √½`, so the computed confidence is
`√½ / ½ = √2`, whereas the claimed population-standard-deviation formula
gives `√¼ / ½ = 1`; the two differ, refuting the claim at this input. -/
theorem c2_population_counterexample :
    confidence [("a", (1 : ℚ)), ("b", 0)] ≠
      some (claimedPopCoV [("a", (1 : ℚ)), ("b", 0)]) := by
  have hL : confidence [("a", (1 : ℚ)), ("b", 0)] =
      some (pyStdev [1, 0] / ((pyMean [1, 0] : ℚ) : ℝ)) := by
    with_unfolding_all rfl
  have hm : pyMean [(1 : ℚ), 0] = 1 / 2 := by norm_num [pyMean]
  have hs : sumSqDev [(1 : ℚ), 0] = 1 / 2 := by norm_num [sumSqDev, pyMean]
  have hstd : pyStdev [(1 : ℚ), 0] = Real.sqrt (1 / 2) := by
    rw [pyStdev, hs]
    norm_num
  have hall : (([("a", (1 : ℚ)), ("b", 0)].map Prod.snd).all fun x => x == 0) = false := by
    decide
  have hpop : populationStdDev [(1 : ℚ), 0] = Real.sqrt (1 / 4) := by
    rw [populationStdDev]
    norm_num
  have hR : claimedPopCoV [("a", (1 : ℚ)), ("b", 0)] =
      Real.sqrt (1 / 4) / ((1 / 2 : ℝ)) := by
    simp only [claimedPopCoV, hall, Bool.false_eq_true, if_false, List.map_cons,
      List.map_nil]
    rw [hpop]
    norm_num
  intro hEq
  rw [hL, hR, hstd, hm] at hEq
  have h1 : Real.sqrt (1 / 2) / ((1 / 2 : ℝ)) = Real.sqrt (1 / 4) / (1 / 2 : ℝ) := by
    have := Option.some.inj hEq
    push_cast at this
    exact this
  have h05 : (1 / 2 : ℝ) ≠ 0 := by norm_num
  have h2 : Real.sqrt (1 / 2) = Real.sqrt (1 / 4) := by
    have hmul := congrArg (fun x : ℝ => x * (1 / 2)) h1
    simp only [] at hmul
    rw [div_mul_cancel₀ _ h05, div_mul_cancel₀ _ h05] at hmul
    exact hmul
  have h3 : (1 / 2 : ℝ) = 1 / 4 :=
    (Real.sqrt_inj (by norm_num) (by norm_num)).mp h2
  norm_num at h3

/-- C2 amended: for every non-empty score map, if every score is zero the
confidence is `0`; otherwise, provided the map has at least two entries
and the scores do not sum to zero (the source raises `StatisticsError`
or `ZeroDivisionError` in those cases), the confidence equals the SAMPLE
standard deviation of all the scores (denominator `n - 1`) divided by
their arithmetic mean. -/
theorem c2_sample_not_population (m : List (String × ℚ)) (hne : m ≠ []) :
    (((m.map Prod.snd).all fun x => x == 0) = true → confidence m = some 0) ∧
    (((m.map Prod.snd).all fun x => x == 0) = false → 2 ≤ m.length →
      (m.map Prod.snd).sum ≠ 0 →
      confidence m = some (sampleCoV (m.map Prod.snd))) := by
  have hperm := sorted_vals_perm m
  constructor
  · intro hall
    have h1 : (((sortDescByValue m).map Prod.snd).all fun x => x == 0) = true := by
      rw [perm_all_eq hperm]
      exact hall
    simp only [confidence, h1, if_true]
  · intro hall hlen hsum
    have h1 : (((sortDescByValue m).map Prod.snd).all fun x => x == 0) = false := by
      rw [perm_all_eq hperm]
      exact hall
    have hlen2 : ((sortDescByValue m).map Prod.snd).length = (m.map Prod.snd).length :=
      hperm.length_eq
    have h2 : ¬ ((sortDescByValue m).map Prod.snd).length < 2 := by
      rw [hlen2, List.length_map]
      omega
    have h3 : (((sortDescByValue m).map Prod.snd).sum == 0) = false := by
      rw [hperm.sum_eq]
      exact beq_eq_false_iff_ne.mpr hsum
    simp only [confidence, h1, Bool.false_eq_true, if_false, if_neg h2, h3]
    rw [pyStdev, sumSqDev_perm hperm, pyMean_perm hperm, hlen2]
    rfl

/-- Witness for C2's amended statement: on `\x7b"a": 1, "b": 3\x7d` the
confidence is the sample coefficient of variation of `[1, 3]`. -/
theorem c2_sample_not_population_witness :
    ([("a", (1 : ℚ)), ("b", 3)] ≠ ([] : List (String × ℚ))) ∧
    confidence [("a", (1 : ℚ)), ("b", 3)] =
      some (sampleCoV ([("a", (1 : ℚ)), ("b", 3)].map Prod.snd)) := by
  refine ⟨by decide, ?_⟩
  exact (c2_sample_not_population [("a", 1), ("b", 3)] (by decide)).2
    (by decide) (by decide) (by norm_num)

theorem foldl_max_spec (ps : List (String × ℚ)) (acc : String × ℚ) :
    (ps.foldl (fun best q => if best.2 < q.2 then q else best) acc = acc ∨
      ps.foldl (fun best q => if best.2 < q.2 then q else best) acc ∈ ps) ∧
    acc.2 ≤ (ps.foldl (fun best q => if best.2 < q.2 then q else best) acc).2 ∧
    ∀ p ∈ ps, p.2 ≤ (ps.foldl (fun best q => if best.2 < q.2 then q else best) acc).2 := by
  induction ps generalizing acc with
  | nil => exact ⟨Or.inl rfl, le_refl _, fun p hp => absurd hp (List.not_mem_nil p)⟩
  | cons q qs ih =>
    obtain ⟨h1, h2, h3⟩ := ih (if acc.2 < q.2 then q else acc)
    rw [List.foldl_cons]
    have hstep : acc.2 ≤ (if acc.2 < q.2 then q else acc).2 ∧
        q.2 ≤ (if acc.2 < q.2 then q else acc).2 := by
      by_cases h : acc.2 < q.2
      · rw [if_pos h]
        exact ⟨le_of_lt h, le_refl _⟩
      · rw [if_neg h]
        exact ⟨le_refl _, le_of_not_lt h⟩
    refine ⟨?_, le_trans hstep.1 h2, ?_⟩
    · rcases h1 with h1 | h1
      · rw [h1]
        by_cases h : acc.2 < q.2
        · rw [if_pos h]
          exact Or.inr (List.mem_cons_self q qs)
        · rw [if_neg h]
          exact Or.inl rfl
      · exact Or.inr (List.mem_cons_of_mem q h1)
    · intro p hp
      rcases List.mem_cons.mp hp with rfl | hp2
      · exact le_trans hstep.2 h2
      · exact h3 p hp2

theorem argmaxFirst_spec {l : List (String × ℚ)} {b : String × ℚ}
    (h : argmaxFirst l = some b) : b ∈ l ∧ ∀ p ∈ l, p.2 ≤ b.2 := by
  cases l with
  | nil => cases h
  | cons p ps =>
    have hb : b = ps.foldl (fun best q => if best.2 < q.2 then q else best) p :=
      (Option.some.inj h).symm
    obtain ⟨h1, h2, h3⟩ := foldl_max_spec ps p
    subst hb
    refine ⟨?_, ?_⟩
    · rcases h1 with h1 | h1
      · rw [h1]
        exact List.mem_cons_self p ps
      · exact List.mem_cons_of_mem p h1
    · intro x hx
      rcases List.mem_cons.mp hx with rfl | hx2
      · exact h2
      · exact h3 x hx2

theorem predict_eq_gate (scorer : String → List (String × ℚ)) (threshold : ℝ)
    (text : Option String) {best : String × ℚ} {c : ℝ}
    (hbest : argmaxFirst (scorer (normalizeText text)) = some best)
    (hc : confidence (scorer (normalizeText text)) = some c) :
    predict scorer threshold text =
      some (if c < threshold then "unknown" else best.1) := by
  unfold predict
  rw [hbest, hc]

/-- C6: whenever the score map of the processed utterance has a top entry
and a defined confidence `c`, `predict` returns the top-scoring label
(first maximal in iteration order, with a score at least every other
score) when `c` is at least the threshold — equality included — and
returns `"unknown"` exactly when `c` is strictly below the threshold. -/
theorem c6_threshold_boundary (scorer : String → List (String × ℚ))
    (threshold : ℝ) (text : Option String) (best : String × ℚ) (c : ℝ)
    (hbest : argmaxFirst (scorer (normalizeText text)) = some best)
    (hc : confidence (scorer (normalizeText text)) = some c) :
    (threshold ≤ c → predict scorer threshold text = some best.1 ∧
      best ∈ scorer (normalizeText text) ∧
      ∀ p ∈ scorer (normalizeText text), p.2 ≤ best.2) ∧
    (c < threshold → predict scorer threshold text = some "unknown") := by
  obtain ⟨hmem, hmax⟩ := argmaxFirst_spec hbest
  constructor
  · intro hge
    refine ⟨?_, hmem, hmax⟩
    rw [predict_eq_gate scorer threshold text hbest hc, if_neg (not_lt.mpr hge)]
  · intro hlt
    rw [predict_eq_gate scorer threshold text hbest hc, if_pos hlt]

/-- Witness for C6 at a concrete input: an all-zero score map has
confidence `0`; with threshold `0` the boundary case `confidence =
threshold` is accepted and the first maximal label is returned. -/
theorem c6_threshold_boundary_witness :
    argmaxFirst ((fun _ : String => [("a", (0 : ℚ)), ("b", 0)]) (normalizeText (some "hi"))) =
      some ("a", 0) ∧
    confidence ((fun _ : String => [("a", (0 : ℚ)), ("b", 0)]) (normalizeText (some "hi"))) =
      some 0 ∧
    (0 : ℝ) ≤ 0 ∧
    predict (fun _ : String => [("a", (0 : ℚ)), ("b", 0)]) 0 (some "hi") = some "a" := by
  have h := (c6_threshold_boundary (fun _ : String => [("a", (0 : ℚ)), ("b", 0)])
    0 (some "hi") ("a", 0) 0 rfl rfl).1 (le_refl 0)
  exact ⟨rfl, rfl, le_refl 0, h.1⟩

theorem pyMean_one_zero : pyMean [(1 : ℚ), 0] = 1 / 2 := by norm_num [pyMean]

theorem pyStdev_one_zero : pyStdev [(1 : ℚ), 0] = Real.sqrt (1 / 2) := by
  have hs : sumSqDev [(1 : ℚ), 0] = 1 / 2 := by norm_num [sumSqDev, pyMean]
  rw [pyStdev, hs]
  norm_num

/-- C3 counterexample: `predict` has no early return for empty input —
the scorer IS invoked on the empty string and its output decides the
result.  With a scorer that maps every text to
`\x7b"greeting": 1, "goodbye": 0\x7d` and the default threshold `0.5`, the
empty utterance's confidence is `√½ / ½ ≥ 1`, so `predict("")` returns
`"greeting"`, not the claimed immediate `"unknown"`. -/
theorem c3_scorer_invoked_counterexample :
    predict (fun _ : String => [("greeting", (1 : ℚ)), ("goodbye", 0)])
        (1 / 2) (some "") ≠ some "unknown" := by
  have hbest : argmaxFirst ((fun _ : String => [("greeting", (1 : ℚ)), ("goodbye", 0)])
      (normalizeText (some ""))) = some ("greeting", 1) := rfl
  have hc : confidence ((fun _ : String => [("greeting", (1 : ℚ)), ("goodbye", 0)])
      (normalizeText (some ""))) =
      some (pyStdev [1, 0] / ((pyMean [1, 0] : ℚ) : ℝ)) := by
    with_unfolding_all rfl
  rw [predict_eq_gate _ _ _ hbest hc]
  have hge : (1 / 2 : ℝ) ≤ pyStdev [1, 0] / ((pyMean [1, 0] : ℚ) : ℝ) := by
    rw [pyStdev_one_zero, pyMean_one_zero]
    have hcast : (((1 / 2 : ℚ)) : ℝ) = 1 / 2 := by norm_num
    rw [hcast]
    have h1 : (1 / 2 : ℝ) ≤ Real.sqrt (1 / 2) :=
      (Real.le_sqrt (by norm_num) (by norm_num)).mpr (by norm_num)
    calc (1 / 2 : ℝ) ≤ Real.sqrt (1 / 2) := h1
      _ = Real.sqrt (1 / 2) / 1 := by rw [div_one]
      _ ≤ Real.sqrt (1 / 2) / (1 / 2) := by
          exact div_le_div_of_nonneg_left (Real.sqrt_nonneg _)
            (by norm_num) (by norm_num)
  rw [if_neg (not_lt.mpr hge)]
  decide

/-- C3 amended: an empty or null utterance (including whitespace-only
input, which normalizes to the empty string) does NOT short-circuit:
`predict` invokes the scorer on `""` and behaves exactly as on the empty
string, returning `"unknown"` precisely when the confidence of the
scorer's output for `""` falls strictly below the threshold, and the
top-scoring label otherwise. -/
theorem c3_empty_input_invokes_scorer (scorer : String → List (String × ℚ))
    (threshold : ℝ) (text : Option String)
    (hempty : normalizeText text = "") :
    predict scorer threshold text = predict scorer threshold (some "") ∧
    ∀ (best : String × ℚ) (c : ℝ), argmaxFirst (scorer "") = some best →
      confidence (scorer "") = some c →
      ((c < threshold → predict scorer threshold text = some "unknown") ∧
        (threshold ≤ c → predict scorer threshold text = some best.1)) := by
  have hnorm : normalizeText (some "") = "" := rfl
  constructor
  · unfold predict
    rw [hempty, hnorm]
  · intro best c hbest hc
    have hbest2 : argmaxFirst (scorer (normalizeText text)) = some best := by
      rw [hempty]
      exact hbest
    have hc2 : confidence (scorer (normalizeText text)) = some c := by
      rw [hempty]
      exact hc
    constructor
    · intro hlt
      rw [predict_eq_gate scorer threshold text hbest2 hc2, if_pos hlt]
    · intro hge
      rw [predict_eq_gate scorer threshold text hbest2 hc2, if_neg (not_lt.mpr hge)]

/-- Witness for C3's amended statement: a null utterance with an all-zero
scorer output and threshold `1` goes through the confidence gate
(`0 < 1`) and yields `"unknown"`. -/
theorem c3_empty_input_invokes_scorer_witness :
    normalizeText none = "" ∧
    predict (fun _ : String => [("a", (0 : ℚ))]) 1 none = some "unknown" := by
  have h := (c3_empty_input_invokes_scorer (fun _ : String => [("a", (0 : ℚ))])
    1 none rfl).2 ("a", 0) 0 rfl rfl
  exact ⟨rfl, h.1 (by norm_num)⟩

/-- C10 (code bug, evaluated at the failing input): the dispatch table
does always contain `"unknown"`, mapping to the fixed apology with
`should_exit = false`, and `run_intent("unknown")` returns that apology;
but for a name absent from the registry the source's
`intent_funcs.get(intent_name, unknown)` falls back to the bare `unknown`
FUNCTION rather than its `Intent` namedtuple, so the subsequent
`intent.requires_text` attribute access raises `AttributeError` instead
of returning the apology — `run_intent("nonexistent")` raises rather
than falling back. -/
theorem c10_unknown_entry_fallback_raises (ext : ExternalHandlers) :
    (intent_funcs ext).find? (fun p => p.1 == "unknown") =
      some ("unknown", unknown_entry) ∧
    unknown_entry.run "" = "Sorry, I don't know what you mean." ∧
    unknown_entry.should_exit = false ∧
    run_intent ext "unknown" "" =
      .ok ("Sorry, I don't know what you mean.", false) ∧
    run_intent ext "nonexistent" "" =
      .error "AttributeError: 'function' object has no attribute 'requires_text'" :=
  ⟨rfl, rfl, rfl, rfl, rfl⟩
